import Mathlib

/-!
# Paraswap swap helper (`src/utils/paraswap/swap-helper.js`)

A shallow embedding of `makeParaswapHelpers`: the adapter and target-exchange
tables of `getPath`, the per-exchange dispatch of
`getSimpleSwapExchangeCallParams`, the five call encoders, `multiCall` and the
scenario runner `testTrade`.

Conventions of the embedding.

* JavaScript values are terms of `Val`; `Val.undefined` and `Val.null` are the
  two JavaScript sentinels, objects are association lists.
* Token and contract addresses are strings, compared with `===` as in the
  source (string equality).
* Amounts and balances are natural numbers (the source compares them as big
  numbers).
* The helpers imported from `sell-helper.js`, `utilities.js` and web3 are not
  part of the file: they enter as fields of `Config` (functions of their
  arguments) or, for the ABI encoders, as symbolic call data that records the
  method name and the argument list.
* The chain is a `World`: balances before the relayed call, the outcome of the
  relayed call, balances after it.  A run of `testTrade` returns the list of
  effects it performed together with its result.
-/

set_option autoImplicit false

namespace SwapHelper

/-! ## Values -/

/-- Deployed contract instance, known by its address. -/
structure Contract where
  address : String
deriving DecidableEq, Repr

/-- JavaScript values handled by the helper. -/
inductive Val where
  | undefined : Val
  | null : Val
  | bool (b : Bool) : Val
  | num (n : Nat) : Val
  | str (s : String) : Val
  | contract (c : Contract) : Val
  | arr (xs : List Val) : Val
  | obj (fields : List (String × Val)) : Val

/-- Property lookup in an object literal: `undefined` when the key is absent. -/
def lookupKey : List (String × Val) → String → Val
  | [], _ => Val.undefined
  | (k, v) :: rest, key => if k = key then v else lookupKey rest key

/-- Property access `v[key]`. -/
def Val.get : Val → String → Val
  | Val.obj fields, key => lookupKey fields key
  | _, _ => Val.undefined

/-- Indexing `xs[0]` of an array: `undefined` when the array is empty. -/
def index0 : List Val → Val
  | [] => Val.undefined
  | v :: _ => v

/-- Lookup `table[key]` in an object keyed by address whose values are contracts. -/
def lookupContract : List (String × Contract) → String → Val
  | [], _ => Val.undefined
  | (k, c) :: rest, key => if k = key then Val.contract c else lookupContract rest key

/-! ## Constants of the file -/

def PARASWAP_ETH_TOKEN : String := "0xEeeeeEeeeEeEeeEeEeEeeEEEeeeeEeeeeeeeEEeE"

def UNIV3_FEE : Nat := 3000

/-! ## Configuration handed to `makeParaswapHelpers` -/

structure Tokens where
  tokenA : Contract
  tokenB : Contract
  tokenC : Contract

structure AdapterAddresses where
  uniswap : Val
  uniswapV2 : Val
  uniswapV3 : Val
  sushiswap : Val
  linkswap : Val
  defiswap : Val
  zeroexV2 : Val
  zeroexV4 : Val
  curve : Val
  weth : Val

structure TargetExchangeAddresses where
  zeroexV2 : Val
  zeroexV4 : Val
  curve : List Val

structure ExchangeContracts where
  paraswapUniV2Router : Contract
  uniswapV3Router : Contract
  uniswapV1Exchanges : List (String × Contract)
  zeroExV2TargetExchange : Contract
  zeroExV4TargetExchange : Contract
  curvePool : Contract
  weth : Contract

structure UniswapForkData where
  factory : Val
  initCode : Val

/-- The argument of `makeParaswapHelpers`, together with what the file imports:
`ZERO_ADDRESS` of `utilities.js` and the four functions of `sell-helper.js`. -/
structure Config where
  tokens : Tokens
  paraswap : Contract
  paraswapProxy : Val
  unauthorisedAdapter : Contract
  adapterAddresses : AdapterAddresses
  targetExchangeAddresses : TargetExchangeAddresses
  exchangeContracts : ExchangeContracts
  uniswapForkData : UniswapForkData
  uniswapV1Factory : Contract
  zeroExV2Proxy : Val
  marketMaker : Val
  other : Val
  ZERO_ADDRESS : String
  getRouteParams : String → String → Val → Val → Val → Val
  getParaswappoolData : Val → Val
  getSimpleSwapParams : Val → List Val
  getRoutesForExchange : Val → List Val

/-! ## `getPath` -/

/-- Argument object of `getPath`, with the defaults of its destructuring. -/
structure PathArgs where
  fromToken : String
  toToken : String
  routes : List Val
  useUnauthorisedAdapter : Bool := false
  useUnauthorisedTargetExchange : Bool := false

/-- The object `exchanges` of `getPath` (lines 68-79). -/
def exchanges (cfg : Config) (useUnauthorisedAdapter : Bool) : Val :=
  let unauthorised := Val.str cfg.unauthorisedAdapter.address
  Val.obj [
    ("uniswap", if useUnauthorisedAdapter then unauthorised else cfg.adapterAddresses.uniswap),
    ("uniswapv2", if useUnauthorisedAdapter then unauthorised else cfg.adapterAddresses.uniswapV2),
    ("uniswapv3", if useUnauthorisedAdapter then unauthorised else cfg.adapterAddresses.uniswapV3),
    ("sushiswap", if useUnauthorisedAdapter then unauthorised else cfg.adapterAddresses.sushiswap),
    ("linkswap", if useUnauthorisedAdapter then unauthorised else cfg.adapterAddresses.linkswap),
    ("defiswap", if useUnauthorisedAdapter then unauthorised else cfg.adapterAddresses.defiswap),
    ("paraswappoolv2", if useUnauthorisedAdapter then unauthorised else cfg.adapterAddresses.zeroexV2),
    ("paraswappoolv4", if useUnauthorisedAdapter then unauthorised else cfg.adapterAddresses.zeroexV4),
    ("curve", if useUnauthorisedAdapter then unauthorised else cfg.adapterAddresses.curve),
    ("weth", if useUnauthorisedAdapter then unauthorised else cfg.adapterAddresses.weth)]

/-- The object `targetExchanges` of `getPath` (lines 80-91). -/
def targetExchanges (cfg : Config) (useUnauthorisedTargetExchange : Bool) : Val :=
  Val.obj [
    ("uniswap", if useUnauthorisedTargetExchange then cfg.other
      else Val.str cfg.uniswapV1Factory.address),
    ("uniswapv2", Val.str cfg.ZERO_ADDRESS),
    ("uniswapv3", if useUnauthorisedTargetExchange then cfg.other
      else Val.str cfg.exchangeContracts.uniswapV3Router.address),
    ("sushiswap", Val.str cfg.ZERO_ADDRESS),
    ("linkswap", Val.str cfg.ZERO_ADDRESS),
    ("defiswap", Val.str cfg.ZERO_ADDRESS),
    ("paraswappoolv2", if useUnauthorisedTargetExchange then cfg.other
      else cfg.targetExchangeAddresses.zeroexV2),
    ("paraswappoolv4", if useUnauthorisedTargetExchange then cfg.other
      else cfg.targetExchangeAddresses.zeroexV4),
    ("curve", if useUnauthorisedTargetExchange then cfg.other
      else index0 cfg.targetExchangeAddresses.curve),
    ("weth", Val.str cfg.ZERO_ADDRESS)]

/-- Source `getPath` (lines 67-97): one path element whose routes are built by
`getRouteParams` from the two tables. -/
def getPath (cfg : Config) (a : PathArgs) : Val :=
  Val.arr [Val.obj [
    ("to", Val.str a.toToken),
    ("totalNetworkFee", Val.num 0),
    ("routes", Val.arr (a.routes.map (fun route =>
      cfg.getRouteParams a.fromToken a.toToken route
        (exchanges cfg a.useUnauthorisedAdapter)
        (targetExchanges cfg a.useUnauthorisedTargetExchange))))]]

/-! ## Call encoders -/

/-- Call data produced by `contract.methods.<method>(...args).encodeABI()`, kept
symbolic: the method name and the argument list. -/
structure CallData where
  method : String
  args : List Val

/-- Symbolic `contract.methods.<method>(...args).encodeABI()`. -/
def encodeABI (method : String) (args : List Val) : CallData :=
  { method := method, args := args }

/-- Argument object of `getMultiSwapData` and `getMegaSwapData`. -/
structure SwapArgs where
  fromToken : String
  toToken : String
  fromAmount : Nat
  toAmount : Nat
  beneficiary : String
  useUnauthorisedAdapter : Bool := false
  useUnauthorisedTargetExchange : Bool := false
  routes : List Val

/-- Source `getMultiSwapData` (lines 99-113). -/
def getMultiSwapData (cfg : Config) (a : SwapArgs) : CallData :=
  let path := getPath cfg
    { fromToken := a.fromToken, toToken := a.toToken, routes := a.routes,
      useUnauthorisedAdapter := a.useUnauthorisedAdapter,
      useUnauthorisedTargetExchange := a.useUnauthorisedTargetExchange }
  encodeABI "multiSwap" [Val.obj [
    ("fromToken", Val.str a.fromToken),
    ("fromAmount", Val.num a.fromAmount),
    ("toAmount", Val.num a.toAmount),
    ("expectedAmount", Val.num 0),
    ("beneficiary", Val.str a.beneficiary),
    ("referrer", Val.str "abc"),
    ("useReduxToken", Val.bool false),
    ("path", path)]]

/-- Source `getMegaSwapData` (lines 115-136). -/
def getMegaSwapData (cfg : Config) (a : SwapArgs) : CallData :=
  let path := getPath cfg
    { fromToken := a.fromToken, toToken := a.toToken, routes := a.routes,
      useUnauthorisedAdapter := a.useUnauthorisedAdapter,
      useUnauthorisedTargetExchange := a.useUnauthorisedTargetExchange }
  encodeABI "megaSwap" [Val.obj [
    ("fromToken", Val.str a.fromToken),
    ("fromAmount", Val.num a.fromAmount),
    ("toAmount", Val.num a.toAmount),
    ("expectedAmount", Val.num 0),
    ("beneficiary", Val.str a.beneficiary),
    ("referrer", Val.str "abc"),
    ("useReduxToken", Val.bool false),
    ("path", Val.arr [Val.obj [("fromAmountPercent", Val.num 10000), ("path", path)]])]]

/-! ## `getSimpleSwapExchangeCallParams` -/

/-- Argument object of `getSimpleSwapExchangeCallParams`. -/
structure ExchangeCallArgs where
  exchange : String
  fromToken : String
  toToken : String
  fromAmount : Nat
  toAmount : Nat
  maker : Val

/-- Object returned by `getSimpleSwapExchangeCallParams` (line 200). -/
structure ExchangeCallParams where
  targetExchange : Val
  swapMethod : Val
  swapParams : Val
  proxy : Val
  convertWeth : Bool
  augustus : Val
  weth : Val

/-- Source `getSimpleSwapExchangeCallParams` (lines 138-201).  The three `let`
variables without initialiser start `undefined`, `proxy` starts `null` and
`convertWeth` starts `false`; each branch of the chain assigns some of them. -/
def getSimpleSwapExchangeCallParams (cfg : Config) (a : ExchangeCallArgs) : ExchangeCallParams :=
  let ec := cfg.exchangeContracts
  let augustus := Val.contract cfg.paraswap
  let weth := Val.contract ec.weth
  if a.exchange = "uniswapv2" then
    { targetExchange := Val.contract ec.paraswapUniV2Router
      swapMethod := Val.str "swap"
      swapParams := Val.arr [Val.num a.fromAmount, Val.num a.toAmount,
        Val.arr [Val.str a.fromToken, Val.str a.toToken]]
      proxy := Val.null, convertWeth := false, augustus := augustus, weth := weth }
  else if a.exchange = "uniswapv3" then
    { targetExchange := Val.contract ec.uniswapV3Router
      swapMethod := Val.str "exactInputSingle"
      swapParams := Val.arr [Val.obj [
        ("tokenIn", Val.str a.fromToken),
        ("tokenOut", Val.str a.toToken),
        ("fee", Val.num UNIV3_FEE),
        ("recipient", Val.str cfg.paraswap.address),
        ("deadline", Val.num 99999999999),
        ("amountIn", Val.num a.fromAmount),
        ("amountOutMinimum", Val.num a.toAmount),
        ("sqrtPriceLimitX96", Val.num 0)]]
      proxy := Val.null, convertWeth := false, augustus := augustus, weth := weth }
  else if a.exchange = "uniswap" ∨ a.exchange = "uniswapLike" then
    if a.fromToken = PARASWAP_ETH_TOKEN then
      { targetExchange := lookupContract ec.uniswapV1Exchanges a.toToken
        swapMethod := Val.str "ethToTokenSwapInput"
        swapParams := Val.arr [Val.num 1, Val.num 99999999999]
        proxy := Val.null, convertWeth := false, augustus := augustus, weth := weth }
    else if a.toToken = PARASWAP_ETH_TOKEN then
      { targetExchange := lookupContract ec.uniswapV1Exchanges a.fromToken
        swapMethod := Val.str "tokenToEthSwapInput"
        swapParams := Val.arr [Val.num a.fromAmount, Val.num 1, Val.num 99999999999]
        proxy := Val.null, convertWeth := false, augustus := augustus, weth := weth }
    else
      { targetExchange := lookupContract ec.uniswapV1Exchanges a.fromToken
        swapMethod := Val.str "tokenToTokenSwapInput"
        swapParams := Val.arr [Val.num a.fromAmount, Val.num 1, Val.num 1,
          Val.num 99999999999, Val.str a.toToken]
        proxy := Val.null, convertWeth := false, augustus := augustus, weth := weth }
  else if a.exchange = "zeroexv2" then
    let data := cfg.getParaswappoolData (Val.obj [("maker", a.maker), ("version", Val.num 2)])
    { targetExchange := Val.contract ec.zeroExV2TargetExchange
      swapMethod := Val.str "marketSellOrdersNoThrow"
      swapParams := Val.arr [data.get "orders", Val.num 0, data.get "signatures"]
      proxy := cfg.zeroExV2Proxy
      convertWeth := decide (a.toToken = PARASWAP_ETH_TOKEN)
      augustus := augustus, weth := weth }
  else if a.exchange = "zeroexv4" then
    let data := cfg.getParaswappoolData (Val.obj [
      ("fromToken", Val.str a.fromToken), ("toToken", Val.str a.toToken),
      ("maker", a.maker), ("version", Val.num 4)])
    { targetExchange := Val.contract ec.zeroExV4TargetExchange
      swapMethod := Val.str "fillRfqOrder"
      swapParams := Val.arr [data.get "order", data.get "signature", Val.num 0]
      proxy := Val.null
      convertWeth := decide (a.toToken = PARASWAP_ETH_TOKEN)
      augustus := augustus, weth := weth }
  else if a.exchange = "curve" then
    { targetExchange := Val.contract ec.curvePool
      swapMethod := Val.str "exchange"
      swapParams := Val.arr [Val.num 0, Val.num 1, Val.num a.fromAmount, Val.num a.toAmount]
      proxy := Val.null, convertWeth := false, augustus := augustus, weth := weth }
  else if a.exchange = "weth" then
    { targetExchange := Val.contract ec.weth
      swapMethod := if a.fromToken = PARASWAP_ETH_TOKEN then Val.str "deposit"
        else Val.str "withdraw"
      swapParams := if a.fromToken = PARASWAP_ETH_TOKEN then Val.arr []
        else Val.arr [Val.num a.toAmount]
      proxy := Val.null, convertWeth := false, augustus := augustus, weth := weth }
  else
    { targetExchange := Val.undefined, swapMethod := Val.undefined, swapParams := Val.undefined
      proxy := Val.null, convertWeth := false, augustus := augustus, weth := weth }

/-! ## Token contracts and the remaining encoders -/

/-- Source `getTokenContract` (lines 31-45): the contract of a known token, or a
bare object carrying only an `address` field. -/
def getTokenContract (cfg : Config) (tokenAddress : String) : Val :=
  if tokenAddress = cfg.tokens.tokenA.address then Val.contract cfg.tokens.tokenA
  else if tokenAddress = cfg.tokens.tokenB.address then Val.contract cfg.tokens.tokenB
  else if tokenAddress = cfg.tokens.tokenC.address then Val.contract cfg.tokens.tokenC
  else if tokenAddress = cfg.exchangeContracts.weth.address then
    Val.contract cfg.exchangeContracts.weth
  else Val.obj [("address", Val.str PARASWAP_ETH_TOKEN)]

/-- Argument object of `getSimpleSwapData`; `maker` is optional and defaults to
`marketMaker`. -/
structure SimpleSwapArgs where
  fromToken : String
  toToken : String
  fromAmount : Nat
  toAmount : Nat
  exchange : String
  beneficiary : String
  maker : Option Val := none

/-- Source `getSimpleSwapData` (lines 203-213). -/
def getSimpleSwapData (cfg : Config) (a : SimpleSwapArgs) : CallData :=
  let p := getSimpleSwapExchangeCallParams cfg
    { exchange := a.exchange, fromToken := a.fromToken, toToken := a.toToken,
      fromAmount := a.fromAmount, toAmount := a.toAmount,
      maker := a.maker.getD cfg.marketMaker }
  let simpleSwapParams := cfg.getSimpleSwapParams (Val.obj [
    ("targetExchange", p.targetExchange),
    ("swapMethod", p.swapMethod),
    ("swapParams", p.swapParams),
    ("proxy", p.proxy),
    ("convertWeth", Val.bool p.convertWeth),
    ("augustus", p.augustus),
    ("weth", p.weth),
    ("fromTokenContract", getTokenContract cfg a.fromToken),
    ("toTokenContract", getTokenContract cfg a.toToken),
    ("fromAmount", Val.num a.fromAmount),
    ("toAmount", Val.num a.toAmount),
    ("beneficiary", Val.str a.beneficiary)])
  encodeABI "simpleSwap" simpleSwapParams

/-- Argument object of the two Uniswap passthrough encoders. -/
structure UniswapArgs where
  fromToken : String
  toToken : String
  fromAmount : Nat
  toAmount : Nat

/-- Source `getSwapOnUniswapData` (lines 215-217). -/
def getSwapOnUniswapData (_cfg : Config) (a : UniswapArgs) : CallData :=
  encodeABI "swapOnUniswap"
    [Val.num a.fromAmount, Val.num a.toAmount,
      Val.arr [Val.str a.fromToken, Val.str a.toToken], Val.num 0]

/-- Source `getSwapOnUniswapForkData` (lines 219-223). -/
def getSwapOnUniswapForkData (cfg : Config) (a : UniswapArgs) : CallData :=
  encodeABI "swapOnUniswapFork"
    [cfg.uniswapForkData.factory, cfg.uniswapForkData.initCode,
      Val.num a.fromAmount, Val.num a.toAmount,
      Val.arr [Val.str a.fromToken, Val.str a.toToken], Val.num 0]

/-! ## The chain, effects and failures -/

/-- Transaction built by `encodeTransaction(to, value, data)` of `utilities.js`,
kept symbolic. -/
structure Transaction where
  to_ : String
  value : Nat
  data : CallData

/-- Symbolic `encodeTransaction`. -/
def encodeTransaction (to_ : String) (value : Nat) (data : CallData) : Transaction :=
  { to_ := to_, value := value, data := data }

/-- Balances of the wallet under test: native asset, and per token contract. -/
structure Balances where
  eth : Nat
  token : Contract → Nat

/-- What the chain answers during one scenario: balances before the relayed
call, the parsed receipt (success flag, error string) of relaying a transaction
list, and balances after it. -/
structure World where
  before : Balances
  relay : List Transaction → Bool × String
  after : Balances

/-- Ways a run can fail: a chai assertion, a JavaScript `TypeError`, or a thrown
`Error` with its message. -/
inductive Failure where
  | assertion (msg : String) : Failure
  | typeError (msg : String) : Failure
  | error (msg : String) : Failure
deriving DecidableEq, Repr

/-- Effects a run performs, in order: a call of `getBalance` for a token, and a
call of `manager.relay` with a transaction list. -/
inductive Effect where
  | getBalance (tokenAddress : String) : Effect
  | relay (transactions : List Transaction) : Effect

/-- A run: the effects performed and how it ended. -/
structure Run where
  effects : List Effect
  result : Except Failure Unit

/-- Source `getBalance` (lines 47-52).  On the bare object that
`getTokenContract` returns for an unknown address, `balanceOf` is not a
function and the call raises a `TypeError`. -/
def getBalance (cfg : Config) (b : Balances) (tokenAddress : String) : Except Failure Nat :=
  if tokenAddress = PARASWAP_ETH_TOKEN then Except.ok b.eth
  else
    match getTokenContract cfg tokenAddress with
    | Val.contract c => Except.ok (b.token c)
    | _ => Except.error (Failure.typeError "balanceOf is not a function")

/-- JavaScript truthiness of `errorReason` (null or a string): null and the
empty string are falsy. -/
def truthy : Option String → Bool
  | none => false
  | some s => decide (s ≠ "")

/-- Source `multiCall` (lines 54-65): relay the transactions, then assert on the
parsed receipt. -/
def multiCall (w : World) (transactions : List Transaction) (errorReason : Option String) : Run :=
  let receipt := w.relay transactions
  let success := receipt.1
  let error := receipt.2
  { effects := [Effect.relay transactions]
    result :=
      if truthy errorReason then
        if success then Except.error (Failure.assertion "multiCall should have failed")
        else if some error = errorReason then Except.ok ()
        else Except.error (Failure.assertion "expected error to equal errorReason")
      else
        if success then Except.ok ()
        else Except.error (Failure.assertion ("multiCall failed: " ++ error)) }

/-! ## `testTrade` -/

/-- Argument object of `testTrade`, with the defaults of its destructuring
(`beneficiary` defaults to `ZERO_ADDRESS`, `fromAmount` to `toWei("0.01")`). -/
structure TradeRequest where
  method : String
  fromToken : String
  toToken : String
  beneficiary : Option String := none
  fromAmount : Nat := 10000000000000000
  toAmount : Nat := 1
  useUnauthorisedAdapter : Bool := false
  useUnauthorisedTargetExchange : Bool := false
  errorReason : Option String := none
  exchange : String := "uniswapLike"

/-- Lines 242-247 of `testTrade`: the approval pushed when `fromToken` is not
the native-asset pseudo-token.  `token.contract.methods` on the bare object of
`getTokenContract` raises a `TypeError`. -/
def approvalTransactions (cfg : Config) (r : TradeRequest) : Except Failure (List Transaction) :=
  if r.fromToken ≠ PARASWAP_ETH_TOKEN then
    match getTokenContract cfg r.fromToken with
    | Val.contract _ =>
      let approveData := encodeABI "approve" [cfg.paraswapProxy, Val.num r.fromAmount]
      Except.ok [encodeTransaction r.fromToken 0 approveData]
    | _ => Except.error (Failure.typeError "cannot read properties of undefined")
  else Except.ok []

/-- Lines 250-268 of `testTrade`: the dispatch on `method`. -/
def swapData (cfg : Config) (r : TradeRequest) : Except Failure CallData :=
  let beneficiary := r.beneficiary.getD cfg.ZERO_ADDRESS
  let routes := cfg.getRoutesForExchange (Val.obj [
    ("fromToken", Val.str r.fromToken), ("toToken", Val.str r.toToken),
    ("maker", cfg.marketMaker), ("exchange", Val.str r.exchange)])
  if r.method = "multiSwap" then
    Except.ok (getMultiSwapData cfg
      { fromToken := r.fromToken, toToken := r.toToken, fromAmount := r.fromAmount,
        toAmount := r.toAmount, beneficiary := beneficiary, routes := routes,
        useUnauthorisedAdapter := r.useUnauthorisedAdapter,
        useUnauthorisedTargetExchange := r.useUnauthorisedTargetExchange })
  else if r.method = "megaSwap" then
    Except.ok (getMegaSwapData cfg
      { fromToken := r.fromToken, toToken := r.toToken, fromAmount := r.fromAmount,
        toAmount := r.toAmount, beneficiary := beneficiary, routes := routes,
        useUnauthorisedAdapter := r.useUnauthorisedAdapter,
        useUnauthorisedTargetExchange := r.useUnauthorisedTargetExchange })
  else if r.method = "simpleSwap" then
    Except.ok (getSimpleSwapData cfg
      { fromToken := r.fromToken, toToken := r.toToken, fromAmount := r.fromAmount,
        toAmount := r.toAmount, beneficiary := beneficiary, exchange := r.exchange })
  else if r.method = "swapOnUniswap" then
    Except.ok (getSwapOnUniswapData cfg
      { fromToken := r.fromToken, toToken := r.toToken, fromAmount := r.fromAmount,
        toAmount := r.toAmount })
  else if r.method = "swapOnUniswapFork" then
    Except.ok (getSwapOnUniswapForkData cfg
      { fromToken := r.fromToken, toToken := r.toToken, fromAmount := r.fromAmount,
        toAmount := r.toAmount })
  else Except.error (Failure.error "Invalid method")

/-- Lines 272-278 of `testTrade`: `multiCall`, then the balance comparison when
`errorReason` is falsy. -/
def verification (cfg : Config) (w : World) (r : TradeRequest) (beforeFrom beforeTo : Nat)
    (transactions : List Transaction) : Run :=
  let call := multiCall w transactions r.errorReason
  match call.result with
  | Except.error e => { effects := call.effects, result := Except.error e }
  | Except.ok _ =>
    if truthy r.errorReason then { effects := call.effects, result := Except.ok () }
    else
      match getBalance cfg w.after r.fromToken with
      | Except.error e =>
        { effects := call.effects ++ [Effect.getBalance r.fromToken], result := Except.error e }
      | Except.ok afterFrom =>
        match getBalance cfg w.after r.toToken with
        | Except.error e =>
          { effects := call.effects ++ [Effect.getBalance r.fromToken, Effect.getBalance r.toToken]
            result := Except.error e }
        | Except.ok afterTo =>
          { effects := call.effects ++ [Effect.getBalance r.fromToken, Effect.getBalance r.toToken]
            result :=
              if ¬ (afterFrom < beforeFrom) then
                Except.error (Failure.assertion "expected beforeFrom to be greater than afterFrom")
              else if ¬ (beforeTo < afterTo) then
                Except.error (Failure.assertion "expected afterTo to be greater than beforeTo")
              else Except.ok () }

/-- Source `testTrade` (lines 225-279): pre-check, transaction assembly,
execution and verification. -/
def testTrade (cfg : Config) (w : World) (r : TradeRequest) : Run :=
  match getBalance cfg w.before r.fromToken with
  | Except.error e => { effects := [Effect.getBalance r.fromToken], result := Except.error e }
  | Except.ok beforeFrom =>
    let reads := [Effect.getBalance r.fromToken, Effect.getBalance r.toToken]
    match getBalance cfg w.before r.toToken with
    | Except.error e => { effects := reads, result := Except.error e }
    | Except.ok beforeTo =>
      if ¬ (r.fromAmount ≤ beforeFrom) then
        { effects := reads
          result := Except.error (Failure.assertion "expected beforeFrom to be at least fromAmount") }
      else
        match approvalTransactions cfg r with
        | Except.error e => { effects := reads, result := Except.error e }
        | Except.ok approvals =>
          match swapData cfg r with
          | Except.error e => { effects := reads, result := Except.error e }
          | Except.ok data =>
            let value := if r.fromToken = PARASWAP_ETH_TOKEN then r.fromAmount else 0
            let transactions := approvals ++ [encodeTransaction cfg.paraswap.address value data]
            let v := verification cfg w r beforeFrom beforeTo transactions
            { effects := reads ++ v.effects, result := v.result }

/-- The five method names `testTrade` dispatches on. -/
def validMethods : List String :=
  ["multiSwap", "megaSwap", "simpleSwap", "swapOnUniswap", "swapOnUniswapFork"]

/-- The transaction lists a run handed to `manager.relay`, in order. -/
def relayed : List Effect → List (List Transaction)
  | [] => []
  | Effect.relay txs :: rest => txs :: relayed rest
  | Effect.getBalance _ :: rest => relayed rest

/-- The tokens a run read the balance of, in order. -/
def balanceReads : List Effect → List String
  | [] => []
  | Effect.relay _ :: rest => balanceReads rest
  | Effect.getBalance t :: rest => t :: balanceReads rest

/-- Keys of an object literal, in order (`Object.keys`). -/
def Val.keys : Val → List String
  | Val.obj fields => fields.map Prod.fst
  | _ => []

/-- The eight exchange strings `getSimpleSwapExchangeCallParams` recognises. -/
def supportedExchanges : List String :=
  ["uniswapv2", "uniswapv3", "uniswap", "uniswapLike", "zeroexv2", "zeroexv4", "curve", "weth"]

/-- An encoder call carries the referrer tag: "abc" is one of its positional
arguments, or the `referrer` field of an argument object. -/
def carriesReferrer (d : CallData) : Prop :=
  Val.str "abc" ∈ d.args ∨ ∃ o ∈ d.args, o.get "referrer" = Val.str "abc"

/-- An encoder call carries the reward-token flag switched off: `false` is one of
its positional arguments, or the `useReduxToken` field of an argument object. -/
def carriesReduxFlagOff (d : CallData) : Prop :=
  Val.bool false ∈ d.args ∨ ∃ o ∈ d.args, o.get "useReduxToken" = Val.bool false

/-- Message of the pre-check assertion of `testTrade` (line 239). -/
def preCheckFailure : Failure :=
  Failure.assertion "expected beforeFrom to be at least fromAmount"

/-! ## A concrete setup

Three tokens, the wrapped native token, Uniswap V1 exchanges for `tokenA` and
`tokenB` only, and helper functions that echo their arguments. -/

def sampleConfig : Config where
  tokens := { tokenA := ⟨"0xA"⟩, tokenB := ⟨"0xB"⟩, tokenC := ⟨"0xC"⟩ }
  paraswap := ⟨"0xAugustus"⟩
  paraswapProxy := Val.str "0xProxy"
  unauthorisedAdapter := ⟨"0xBadAdapter"⟩
  adapterAddresses :=
    { uniswap := Val.str "0xAd1", uniswapV2 := Val.str "0xAd2", uniswapV3 := Val.str "0xAd3",
      sushiswap := Val.str "0xAd4", linkswap := Val.str "0xAd5", defiswap := Val.str "0xAd6",
      zeroexV2 := Val.str "0xAd7", zeroexV4 := Val.str "0xAd8", curve := Val.str "0xAd9",
      weth := Val.str "0xAd10" }
  targetExchangeAddresses :=
    { zeroexV2 := Val.str "0xT1", zeroexV4 := Val.str "0xT2", curve := [Val.str "0xT3"] }
  exchangeContracts :=
    { paraswapUniV2Router := ⟨"0xV2Router"⟩
      uniswapV3Router := ⟨"0xV3Router"⟩
      uniswapV1Exchanges := [("0xA", ⟨"0xV1A"⟩), ("0xB", ⟨"0xV1B"⟩)]
      zeroExV2TargetExchange := ⟨"0xZeroExV2"⟩
      zeroExV4TargetExchange := ⟨"0xZeroExV4"⟩
      curvePool := ⟨"0xCurve"⟩
      weth := ⟨"0xWeth"⟩ }
  uniswapForkData := { factory := Val.str "0xFactory", initCode := Val.str "0xInit" }
  uniswapV1Factory := ⟨"0xV1Factory"⟩
  zeroExV2Proxy := Val.str "0xZeroExProxy"
  marketMaker := Val.str "0xMaker"
  other := Val.str "0xOther"
  ZERO_ADDRESS := "0x0000000000000000000000000000000000000000"
  getRouteParams := fun fromToken toToken route exchanges targetExchanges =>
    Val.arr [Val.str fromToken, Val.str toToken, route, exchanges, targetExchanges]
  getParaswappoolData := fun args =>
    Val.obj [("orders", Val.arr [args]), ("signatures", Val.arr []),
      ("order", args), ("signature", Val.str "0xSig")]
  getSimpleSwapParams := fun args => [args]
  getRoutesForExchange := fun args => [args]

/-- A chain where the wallet holds 5 of every token and 5 native units, and a
relayed call fails with the given error string. -/
def failingWorld (error : String) : World where
  before := { eth := 5, token := fun _ => 5 }
  relay := fun _ => (false, error)
  after := { eth := 5, token := fun _ => 5 }

/-- A chain where the relayed call succeeds, the source side going from 5 to 3
and the destination side from 5 to 7 (tokens `0xA` to `0xB`). -/
def succeedingWorld : World where
  before := { eth := 5, token := fun _ => 5 }
  relay := fun _ => (true, "")
  after := { eth := 5, token := fun c => if c.address = "0xA" then 3 else 7 }

/-! ## Path builder: the two tables -/

/-- C1. With `useUnauthorisedAdapter = true`, `getPath` hands `getRouteParams` an
adapter table whose keys are the ten exchange tags and whose ten values all
equal `unauthorisedAdapter.address`, whatever `useUnauthorisedTargetExchange`
is. -/
theorem getPath_unauthorisedAdapter (cfg : Config) (fromToken toToken : String)
    (routes : List Val) (useUnauthorisedTargetExchange : Bool) :
    getPath cfg
        { fromToken := fromToken, toToken := toToken, routes := routes,
          useUnauthorisedAdapter := true,
          useUnauthorisedTargetExchange := useUnauthorisedTargetExchange }
      = Val.arr [Val.obj [
          ("to", Val.str toToken),
          ("totalNetworkFee", Val.num 0),
          ("routes", Val.arr (routes.map (fun route =>
            cfg.getRouteParams fromToken toToken route (exchanges cfg true)
              (targetExchanges cfg useUnauthorisedTargetExchange))))]]
    ∧ (exchanges cfg true).keys
      = ["uniswap", "uniswapv2", "uniswapv3", "sushiswap", "linkswap", "defiswap",
          "paraswappoolv2", "paraswappoolv4", "curve", "weth"]
    ∧ ["uniswap", "uniswapv2", "uniswapv3", "sushiswap", "linkswap", "defiswap",
          "paraswappoolv2", "paraswappoolv4", "curve", "weth"].map (exchanges cfg true).get
      = List.replicate 10 (Val.str cfg.unauthorisedAdapter.address) := by
  refine ⟨rfl, rfl, ?_⟩
  simp [exchanges, Val.get, lookupKey]

/-- C2. With `useUnauthorisedTargetExchange = true`, `getPath` hands
`getRouteParams` a target-exchange table that maps uniswap, uniswapv3,
paraswappoolv2, paraswappoolv4 and curve to `other`, and uniswapv2, sushiswap,
linkswap, defiswap and weth to `ZERO_ADDRESS`; the latter five are
`ZERO_ADDRESS` for either value of the flag. -/
theorem getPath_unauthorisedTargetExchange (cfg : Config) (fromToken toToken : String)
    (routes : List Val) (useUnauthorisedAdapter flag : Bool) :
    getPath cfg
        { fromToken := fromToken, toToken := toToken, routes := routes,
          useUnauthorisedAdapter := useUnauthorisedAdapter,
          useUnauthorisedTargetExchange := true }
      = Val.arr [Val.obj [
          ("to", Val.str toToken),
          ("totalNetworkFee", Val.num 0),
          ("routes", Val.arr (routes.map (fun route =>
            cfg.getRouteParams fromToken toToken route (exchanges cfg useUnauthorisedAdapter)
              (targetExchanges cfg true))))]]
    ∧ ["uniswap", "uniswapv3", "paraswappoolv2", "paraswappoolv4", "curve"].map
          (targetExchanges cfg true).get
      = List.replicate 5 cfg.other
    ∧ ["uniswapv2", "sushiswap", "linkswap", "defiswap", "weth"].map
          (targetExchanges cfg flag).get
      = List.replicate 5 (Val.str cfg.ZERO_ADDRESS) := by
  refine ⟨rfl, ?_, ?_⟩
  · simp [targetExchanges, Val.get, lookupKey]
  · simp [targetExchanges, Val.get, lookupKey]

/-! ## Exchange parameter resolver -/

/-- Lookup in the Uniswap V1 table is `undefined` exactly for an absent key. -/
theorem lookupContract_eq_undefined (table : List (String × Contract)) (key : String) :
    lookupContract table key = Val.undefined ↔ key ∉ table.map Prod.fst := by
  induction table with
  | nil => simp [lookupContract]
  | cons entry rest ih =>
    obtain ⟨k, c⟩ := entry
    by_cases hk : k = key
    · simp [lookupContract, hk]
    · have hk2 : ¬ key = k := fun h => hk h.symm
      simp [lookupContract, hk, hk2, ih]

/-- C3, as stated, fails: for the supported tag uniswap and the pair (native
asset, tokenC), the Uniswap V1 table of the sample setup has no entry for
tokenC and the returned `targetExchange` is `undefined`. -/
theorem callParams_target_defined_counterexample :
    ¬ ∀ (cfg : Config) (a : ExchangeCallArgs), a.exchange ∈ supportedExchanges →
        (getSimpleSwapExchangeCallParams cfg a).targetExchange ≠ Val.undefined := by
  intro h
  exact h sampleConfig
    { exchange := "uniswap", fromToken := PARASWAP_ETH_TOKEN, toToken := "0xC",
      fromAmount := 10, toAmount := 1, maker := Val.str "0xMaker" }
    (by simp [supportedExchanges]) rfl

/-- C3, amended. For each supported tag the returned `swapMethod` is that
exchange's method name. For uniswapv2, uniswapv3, zeroexv2, zeroexv4, curve and
weth the returned `targetExchange` is the configured contract. For uniswap and
uniswapLike it is the entry of `uniswapV1Exchanges` for `toToken` (when
`fromToken` is the native asset) or for `fromToken` (otherwise), and it is
defined exactly when the table has that entry. -/
theorem callParams_supported (cfg : Config) (a : ExchangeCallArgs) :
    (a.exchange = "uniswapv2" →
      (getSimpleSwapExchangeCallParams cfg a).targetExchange
          = Val.contract cfg.exchangeContracts.paraswapUniV2Router
        ∧ (getSimpleSwapExchangeCallParams cfg a).swapMethod = Val.str "swap")
    ∧ (a.exchange = "uniswapv3" →
      (getSimpleSwapExchangeCallParams cfg a).targetExchange
          = Val.contract cfg.exchangeContracts.uniswapV3Router
        ∧ (getSimpleSwapExchangeCallParams cfg a).swapMethod = Val.str "exactInputSingle")
    ∧ (a.exchange = "uniswap" ∨ a.exchange = "uniswapLike" →
      (getSimpleSwapExchangeCallParams cfg a).targetExchange
          = lookupContract cfg.exchangeContracts.uniswapV1Exchanges
              (if a.fromToken = PARASWAP_ETH_TOKEN then a.toToken else a.fromToken)
        ∧ ((getSimpleSwapExchangeCallParams cfg a).targetExchange ≠ Val.undefined ↔
            (if a.fromToken = PARASWAP_ETH_TOKEN then a.toToken else a.fromToken)
              ∈ cfg.exchangeContracts.uniswapV1Exchanges.map Prod.fst)
        ∧ (getSimpleSwapExchangeCallParams cfg a).swapMethod
          = Val.str (if a.fromToken = PARASWAP_ETH_TOKEN then "ethToTokenSwapInput"
              else if a.toToken = PARASWAP_ETH_TOKEN then "tokenToEthSwapInput"
              else "tokenToTokenSwapInput"))
    ∧ (a.exchange = "zeroexv2" →
      (getSimpleSwapExchangeCallParams cfg a).targetExchange
          = Val.contract cfg.exchangeContracts.zeroExV2TargetExchange
        ∧ (getSimpleSwapExchangeCallParams cfg a).swapMethod
          = Val.str "marketSellOrdersNoThrow")
    ∧ (a.exchange = "zeroexv4" →
      (getSimpleSwapExchangeCallParams cfg a).targetExchange
          = Val.contract cfg.exchangeContracts.zeroExV4TargetExchange
        ∧ (getSimpleSwapExchangeCallParams cfg a).swapMethod = Val.str "fillRfqOrder")
    ∧ (a.exchange = "curve" →
      (getSimpleSwapExchangeCallParams cfg a).targetExchange
          = Val.contract cfg.exchangeContracts.curvePool
        ∧ (getSimpleSwapExchangeCallParams cfg a).swapMethod = Val.str "exchange")
    ∧ (a.exchange = "weth" →
      (getSimpleSwapExchangeCallParams cfg a).targetExchange
          = Val.contract cfg.exchangeContracts.weth
        ∧ (getSimpleSwapExchangeCallParams cfg a).swapMethod
          = Val.str (if a.fromToken = PARASWAP_ETH_TOKEN then "deposit" else "withdraw")) := by
  obtain ⟨exchange, fromToken, toToken, fromAmount, toAmount, maker⟩ := a
  refine ⟨?_, ?_, ?_, ?_, ?_, ?_, ?_⟩
  · rintro rfl
    simp [getSimpleSwapExchangeCallParams]
  · rintro rfl
    simp [getSimpleSwapExchangeCallParams]
  · intro h
    have hne : ∀ x : Val, x ≠ Val.undefined ↔ ¬ x = Val.undefined := fun _ => Iff.rfl
    rcases h with rfl | rfl
    · by_cases h1 : fromToken = PARASWAP_ETH_TOKEN
      · simp [getSimpleSwapExchangeCallParams, h1, hne, lookupContract_eq_undefined]
      · by_cases h2 : toToken = PARASWAP_ETH_TOKEN
        · simp [getSimpleSwapExchangeCallParams, h1, h2, hne, lookupContract_eq_undefined]
        · simp [getSimpleSwapExchangeCallParams, h1, h2, hne, lookupContract_eq_undefined]
    · by_cases h1 : fromToken = PARASWAP_ETH_TOKEN
      · simp [getSimpleSwapExchangeCallParams, h1, hne, lookupContract_eq_undefined]
      · by_cases h2 : toToken = PARASWAP_ETH_TOKEN
        · simp [getSimpleSwapExchangeCallParams, h1, h2, hne, lookupContract_eq_undefined]
        · simp [getSimpleSwapExchangeCallParams, h1, h2, hne, lookupContract_eq_undefined]
  · rintro rfl
    simp [getSimpleSwapExchangeCallParams]
  · rintro rfl
    simp [getSimpleSwapExchangeCallParams]
  · rintro rfl
    simp [getSimpleSwapExchangeCallParams]
  · rintro rfl
    by_cases h1 : fromToken = PARASWAP_ETH_TOKEN <;>
      simp [getSimpleSwapExchangeCallParams, h1]

/-- Instance of `callParams_supported` on the sample setup: uniswap from the
native asset to tokenA resolves to the V1 exchange of tokenA and the method
`ethToTokenSwapInput`. -/
theorem callParams_supported_witness :
    (getSimpleSwapExchangeCallParams sampleConfig
        { exchange := "uniswap", fromToken := PARASWAP_ETH_TOKEN, toToken := "0xA",
          fromAmount := 10, toAmount := 1, maker := Val.str "0xMaker" }).targetExchange
      = lookupContract sampleConfig.exchangeContracts.uniswapV1Exchanges "0xA"
    ∧ (getSimpleSwapExchangeCallParams sampleConfig
        { exchange := "uniswap", fromToken := PARASWAP_ETH_TOKEN, toToken := "0xA",
          fromAmount := 10, toAmount := 1, maker := Val.str "0xMaker" }).swapMethod
      = Val.str "ethToTokenSwapInput" :=
  have h := (callParams_supported sampleConfig
    { exchange := "uniswap", fromToken := PARASWAP_ETH_TOKEN, toToken := "0xA",
      fromAmount := 10, toAmount := 1, maker := Val.str "0xMaker" }).2.2.1 (Or.inl rfl)
  ⟨h.1, h.2.2⟩

/-- C4. For an exchange tag outside the eight recognised strings the resolver
returns (it is a total function) with `targetExchange`, `swapMethod` and
`swapParams` undefined, `proxy` null and `convertWeth` false. -/
theorem callParams_unknown (cfg : Config) (a : ExchangeCallArgs)
    (h1 : a.exchange ≠ "uniswapv2") (h2 : a.exchange ≠ "uniswapv3")
    (h3 : a.exchange ≠ "uniswap") (h4 : a.exchange ≠ "uniswapLike")
    (h5 : a.exchange ≠ "zeroexv2") (h6 : a.exchange ≠ "zeroexv4")
    (h7 : a.exchange ≠ "curve") (h8 : a.exchange ≠ "weth") :
    (getSimpleSwapExchangeCallParams cfg a).targetExchange = Val.undefined
    ∧ (getSimpleSwapExchangeCallParams cfg a).swapMethod = Val.undefined
    ∧ (getSimpleSwapExchangeCallParams cfg a).swapParams = Val.undefined
    ∧ (getSimpleSwapExchangeCallParams cfg a).proxy = Val.null
    ∧ (getSimpleSwapExchangeCallParams cfg a).convertWeth = false := by
  simp [getSimpleSwapExchangeCallParams, h1, h2, h3, h4, h5, h6, h7, h8]

/-- Instance of `callParams_unknown` on the sample setup, for the tag balancer. -/
theorem callParams_unknown_witness :
    (getSimpleSwapExchangeCallParams sampleConfig
        { exchange := "balancer", fromToken := "0xA", toToken := "0xB",
          fromAmount := 10, toAmount := 1, maker := Val.str "0xMaker" }).targetExchange
      = Val.undefined
    ∧ (getSimpleSwapExchangeCallParams sampleConfig
        { exchange := "balancer", fromToken := "0xA", toToken := "0xB",
          fromAmount := 10, toAmount := 1, maker := Val.str "0xMaker" }).swapMethod
      = Val.undefined
    ∧ (getSimpleSwapExchangeCallParams sampleConfig
        { exchange := "balancer", fromToken := "0xA", toToken := "0xB",
          fromAmount := 10, toAmount := 1, maker := Val.str "0xMaker" }).swapParams
      = Val.undefined
    ∧ (getSimpleSwapExchangeCallParams sampleConfig
        { exchange := "balancer", fromToken := "0xA", toToken := "0xB",
          fromAmount := 10, toAmount := 1, maker := Val.str "0xMaker" }).proxy
      = Val.null
    ∧ (getSimpleSwapExchangeCallParams sampleConfig
        { exchange := "balancer", fromToken := "0xA", toToken := "0xB",
          fromAmount := 10, toAmount := 1, maker := Val.str "0xMaker" }).convertWeth
      = false :=
  callParams_unknown sampleConfig
    { exchange := "balancer", fromToken := "0xA", toToken := "0xB",
      fromAmount := 10, toAmount := 1, maker := Val.str "0xMaker" }
    (by decide) (by decide) (by decide) (by decide) (by decide) (by decide) (by decide)
    (by decide)

/-- C10, as stated, fails: unwrapping 10000000000000000 of the wrapped token for
at least 1 native unit, the single `withdraw` argument is 1 (`toAmount`), not
the amount of wrapped token swapped in (`fromAmount`). -/
theorem weth_withdraw_argument_counterexample :
    ¬ ∀ (cfg : Config) (a : ExchangeCallArgs), a.exchange = "weth" →
        a.fromToken ≠ PARASWAP_ETH_TOKEN →
        (getSimpleSwapExchangeCallParams cfg a).swapParams = Val.arr [Val.num a.fromAmount] := by
  intro h
  have h0 := h sampleConfig
    { exchange := "weth", fromToken := "0xWeth", toToken := PARASWAP_ETH_TOKEN,
      fromAmount := 10000000000000000, toAmount := 1, maker := Val.str "0xMaker" }
    rfl (by decide)
  simp [getSimpleSwapExchangeCallParams, PARASWAP_ETH_TOKEN] at h0

/-- C10, amended. For the tag weth the resolver targets the weth contract and
picks the method by direction alone: `deposit` with no argument when `fromToken`
is the native asset, otherwise `withdraw` with exactly one argument, `toAmount`;
`proxy` is null and `convertWeth` is false in both directions. -/
theorem weth_callParams (cfg : Config) (a : ExchangeCallArgs) (h : a.exchange = "weth") :
    (getSimpleSwapExchangeCallParams cfg a).targetExchange
        = Val.contract cfg.exchangeContracts.weth
    ∧ (a.fromToken = PARASWAP_ETH_TOKEN →
        (getSimpleSwapExchangeCallParams cfg a).swapMethod = Val.str "deposit"
        ∧ (getSimpleSwapExchangeCallParams cfg a).swapParams = Val.arr [])
    ∧ (a.fromToken ≠ PARASWAP_ETH_TOKEN →
        (getSimpleSwapExchangeCallParams cfg a).swapMethod = Val.str "withdraw"
        ∧ (getSimpleSwapExchangeCallParams cfg a).swapParams = Val.arr [Val.num a.toAmount])
    ∧ (getSimpleSwapExchangeCallParams cfg a).proxy = Val.null
    ∧ (getSimpleSwapExchangeCallParams cfg a).convertWeth = false := by
  obtain ⟨exchange, fromToken, toToken, fromAmount, toAmount, maker⟩ := a
  simp only at h
  subst h
  by_cases h1 : fromToken = PARASWAP_ETH_TOKEN <;>
    simp [getSimpleSwapExchangeCallParams, h1]

/-- Instance of `weth_callParams` on the sample setup: unwrapping
10000000000000000 of the wrapped token calls `withdraw(1)`. -/
theorem weth_callParams_witness :
    (getSimpleSwapExchangeCallParams sampleConfig
        { exchange := "weth", fromToken := "0xWeth", toToken := PARASWAP_ETH_TOKEN,
          fromAmount := 10000000000000000, toAmount := 1,
          maker := Val.str "0xMaker" }).swapMethod = Val.str "withdraw"
    ∧ (getSimpleSwapExchangeCallParams sampleConfig
        { exchange := "weth", fromToken := "0xWeth", toToken := PARASWAP_ETH_TOKEN,
          fromAmount := 10000000000000000, toAmount := 1,
          maker := Val.str "0xMaker" }).swapParams = Val.arr [Val.num 1] :=
  (weth_callParams sampleConfig
    { exchange := "weth", fromToken := "0xWeth", toToken := PARASWAP_ETH_TOKEN,
      fromAmount := 10000000000000000, toAmount := 1, maker := Val.str "0xMaker" }
    rfl).2.2.1 (by decide)

/-! ## Call encoders: referrer tag and reward-token flag -/

/-- C9, as stated, fails: the argument list of `swapOnUniswap` is four
positional values (two amounts, the token pair, the number 0) and carries
neither the referrer tag "abc" nor a `useReduxToken` flag. -/
theorem swapOnUniswap_referrer_counterexample :
    ¬ ∀ (cfg : Config) (a : UniswapArgs),
        carriesReferrer (getSwapOnUniswapData cfg a)
        ∧ carriesReduxFlagOff (getSwapOnUniswapData cfg a) := by
  intro h
  have h0 := (h sampleConfig
    { fromToken := "0xA", toToken := "0xB", fromAmount := 10, toAmount := 1 }).1
  simp [carriesReferrer, getSwapOnUniswapData, encodeABI, Val.get] at h0

/-- C9, amended. `getMultiSwapData` and `getMegaSwapData` pass the encoder one
argument object whose `referrer` is "abc" and whose `useReduxToken` is false.
`getSwapOnUniswapData` and `getSwapOnUniswapForkData` pass positional arguments
ending in the number 0, with no referrer string and no flag. `getSimpleSwapData`
passes whatever list `getSimpleSwapParams` returns, and hands that helper
neither a `referrer` nor a `useReduxToken` field. -/
theorem encoder_referrer_and_flag (cfg : Config) (a : SwapArgs) (s : SimpleSwapArgs)
    (u : UniswapArgs) :
    (∃ o, (getMultiSwapData cfg a).args = [o] ∧ o.get "referrer" = Val.str "abc"
        ∧ o.get "useReduxToken" = Val.bool false)
    ∧ carriesReferrer (getMultiSwapData cfg a) ∧ carriesReduxFlagOff (getMultiSwapData cfg a)
    ∧ (∃ o, (getMegaSwapData cfg a).args = [o] ∧ o.get "referrer" = Val.str "abc"
        ∧ o.get "useReduxToken" = Val.bool false)
    ∧ carriesReferrer (getMegaSwapData cfg a) ∧ carriesReduxFlagOff (getMegaSwapData cfg a)
    ∧ (getSwapOnUniswapData cfg u).args
        = [Val.num u.fromAmount, Val.num u.toAmount,
            Val.arr [Val.str u.fromToken, Val.str u.toToken], Val.num 0]
    ∧ (getSwapOnUniswapForkData cfg u).args
        = [cfg.uniswapForkData.factory, cfg.uniswapForkData.initCode,
            Val.num u.fromAmount, Val.num u.toAmount,
            Val.arr [Val.str u.fromToken, Val.str u.toToken], Val.num 0]
    ∧ (∃ arg, (getSimpleSwapData cfg s).args = cfg.getSimpleSwapParams arg
        ∧ arg.get "referrer" = Val.undefined ∧ arg.get "useReduxToken" = Val.undefined) := by
  refine ⟨⟨_, rfl, ?_, ?_⟩, ?_, ?_, ⟨_, rfl, ?_, ?_⟩, ?_, ?_, rfl, rfl, ⟨_, rfl, ?_, ?_⟩⟩
  all_goals
    simp [carriesReferrer, carriesReduxFlagOff, getMultiSwapData, getMegaSwapData,
      encodeABI, Val.get, lookupKey]

/-! ## Scenario runner: helper lemmas -/

/-- Whether a balance read returns depends on the token only, not on the
balances. -/
theorem getBalance_readable (cfg : Config) (b b2 : Balances) (t : String) (x : Nat)
    (h : getBalance cfg b t = Except.ok x) : ∃ y, getBalance cfg b2 t = Except.ok y := by
  unfold getBalance at h ⊢
  by_cases ht : t = PARASWAP_ETH_TOKEN
  · simp [ht]
  · simp only [ht, if_false] at h ⊢
    cases hc : getTokenContract cfg t <;> simp [hc] at h ⊢

/-- Once the source balance was read, the approval step returns: nothing for the
native asset, one `approve` transaction otherwise. -/
theorem approvalTransactions_of_readable (cfg : Config) (b : Balances) (r : TradeRequest)
    (x : Nat) (h : getBalance cfg b r.fromToken = Except.ok x) :
    approvalTransactions cfg r
      = Except.ok (if r.fromToken = PARASWAP_ETH_TOKEN then []
          else [encodeTransaction r.fromToken 0
            (encodeABI "approve" [cfg.paraswapProxy, Val.num r.fromAmount])]) := by
  unfold getBalance at h
  unfold approvalTransactions
  by_cases ht : r.fromToken = PARASWAP_ETH_TOKEN
  · simp [ht]
  · simp only [ht, if_false] at h
    cases hc : getTokenContract cfg r.fromToken <;> simp [hc, ht] at h ⊢

/-- The dispatch returns call data for the five method names, encoded for that
method. -/
theorem swapData_valid (cfg : Config) (r : TradeRequest) (h : r.method ∈ validMethods) :
    ∃ d, swapData cfg r = Except.ok d ∧ d.method = r.method := by
  simp only [validMethods, List.mem_cons, List.mem_singleton, List.not_mem_nil, or_false] at h
  rcases h with h | h | h | h | h <;>
    simp [swapData, h, getMultiSwapData, getMegaSwapData, getSimpleSwapData,
      getSwapOnUniswapData, getSwapOnUniswapForkData, encodeABI]

/-- The dispatch throws on any other method name. -/
theorem swapData_invalid (cfg : Config) (r : TradeRequest) (h : r.method ∉ validMethods) :
    swapData cfg r = Except.error (Failure.error "Invalid method") := by
  simp only [validMethods, List.mem_cons, List.mem_singleton, List.not_mem_nil, or_false,
    not_or] at h
  obtain ⟨h1, h2, h3, h4, h5⟩ := h
  simp [swapData, h1, h2, h3, h4, h5]

/-- A run that passed the pre-check and built its swap call is the two balance
reads followed by the verification step on the assembled transactions. -/
theorem testTrade_eq_verification (cfg : Config) (w : World) (r : TradeRequest)
    (bF bT : Nat) (d : CallData)
    (hF : getBalance cfg w.before r.fromToken = Except.ok bF)
    (hT : getBalance cfg w.before r.toToken = Except.ok bT)
    (hle : r.fromAmount ≤ bF) (hd : swapData cfg r = Except.ok d) :
    testTrade cfg w r =
      { effects := [Effect.getBalance r.fromToken, Effect.getBalance r.toToken]
          ++ (verification cfg w r bF bT
            ((if r.fromToken = PARASWAP_ETH_TOKEN then []
              else [encodeTransaction r.fromToken 0
                (encodeABI "approve" [cfg.paraswapProxy, Val.num r.fromAmount])])
              ++ [encodeTransaction cfg.paraswap.address
                (if r.fromToken = PARASWAP_ETH_TOKEN then r.fromAmount else 0) d])).effects
        result := (verification cfg w r bF bT
            ((if r.fromToken = PARASWAP_ETH_TOKEN then []
              else [encodeTransaction r.fromToken 0
                (encodeABI "approve" [cfg.paraswapProxy, Val.num r.fromAmount])])
              ++ [encodeTransaction cfg.paraswap.address
                (if r.fromToken = PARASWAP_ETH_TOKEN then r.fromAmount else 0) d])).result } := by
  unfold testTrade
  simp only [hF, hT, approvalTransactions_of_readable cfg w.before r bF hF, hd]
  simp [hle]

/-- A run whose pre-check fails stops after the two balance reads. -/
theorem testTrade_insufficient (cfg : Config) (w : World) (r : TradeRequest) (bF bT : Nat)
    (hF : getBalance cfg w.before r.fromToken = Except.ok bF)
    (hT : getBalance cfg w.before r.toToken = Except.ok bT)
    (hlt : bF < r.fromAmount) :
    testTrade cfg w r =
      { effects := [Effect.getBalance r.fromToken, Effect.getBalance r.toToken]
        result := Except.error preCheckFailure } := by
  unfold testTrade
  simp only [hF, hT]
  simp [Nat.not_le.mpr hlt, preCheckFailure]

/-- A run with an invalid method that passed the pre-check stops at the
dispatch. -/
theorem testTrade_invalid (cfg : Config) (w : World) (r : TradeRequest) (bF bT : Nat)
    (hF : getBalance cfg w.before r.fromToken = Except.ok bF)
    (hT : getBalance cfg w.before r.toToken = Except.ok bT)
    (hle : r.fromAmount ≤ bF) (hm : r.method ∉ validMethods) :
    testTrade cfg w r =
      { effects := [Effect.getBalance r.fromToken, Effect.getBalance r.toToken]
        result := Except.error (Failure.error "Invalid method") } := by
  unfold testTrade
  simp only [hF, hT, approvalTransactions_of_readable cfg w.before r bF hF,
    swapData_invalid cfg r hm]
  simp [hle]

/-- The verification step relays exactly once, the list it was given. -/
theorem verification_relayed (cfg : Config) (w : World) (r : TradeRequest) (bF bT : Nat)
    (txs : List Transaction) :
    relayed (verification cfg w r bF bT txs).effects = [txs] := by
  unfold verification
  simp only [multiCall]
  split
  · rfl
  · split
    · rfl
    · split
      · rfl
      · split <;> rfl

/-- With a truthy `errorReason` the verification step passes exactly when the
relay failed with that very string, and it performs the relay only. -/
theorem verification_truthy (cfg : Config) (w : World) (r : TradeRequest) (bF bT : Nat)
    (txs : List Transaction) (h : truthy r.errorReason = true) :
    ((verification cfg w r bF bT txs).result = Except.ok () ↔
        (w.relay txs).1 = false ∧ some (w.relay txs).2 = r.errorReason)
    ∧ balanceReads (verification cfg w r bF bT txs).effects = [] := by
  unfold verification
  simp only [multiCall, h, if_true]
  cases hs : (w.relay txs).1
  · by_cases he : some (w.relay txs).2 = r.errorReason
    · simp [he, balanceReads]
    · simp [he, balanceReads]
  · simp [balanceReads]

/-- With a falsy `errorReason` the verification step passes exactly when the
relay succeeded, the source balance went strictly down and the destination
balance strictly up. -/
theorem verification_falsy (cfg : Config) (w : World) (r : TradeRequest) (bF bT aF aT : Nat)
    (txs : List Transaction) (h : truthy r.errorReason = false)
    (hF : getBalance cfg w.after r.fromToken = Except.ok aF)
    (hT : getBalance cfg w.after r.toToken = Except.ok aT) :
    ((verification cfg w r bF bT txs).result = Except.ok () ↔
        (w.relay txs).1 = true ∧ aF < bF ∧ bT < aT)
    ∧ balanceReads (verification cfg w r bF bT txs).effects
        = if (w.relay txs).1 then [r.fromToken, r.toToken] else [] := by
  unfold verification
  simp only [multiCall, h, hF, hT]
  cases hs : (w.relay txs).1
  · simp [balanceReads]
  · by_cases h1 : aF < bF
    · by_cases h2 : bT < aT
      · simp [h1, h2, balanceReads]
      · simp [h1, h2, balanceReads]
    · simp [h1, balanceReads]

/-- Relayed lists of two runs of effects, one after the other. -/
theorem relayed_append (xs ys : List Effect) : relayed (xs ++ ys) = relayed xs ++ relayed ys := by
  induction xs with
  | nil => rfl
  | cons e rest ih => cases e <;> simp [relayed, ih]

/-- Balance reads of two runs of effects, one after the other. -/
theorem balanceReads_append (xs ys : List Effect) :
    balanceReads (xs ++ ys) = balanceReads xs ++ balanceReads ys := by
  induction xs with
  | nil => rfl
  | cons e rest ih => cases e <;> simp [balanceReads, ih]

/-- The two pre-trade balance reads followed by the verification step relay
exactly the list handed to the verification step. -/
theorem relayed_reads_verification (cfg : Config) (w : World) (r : TradeRequest)
    (bF bT : Nat) (txs : List Transaction) :
    relayed ([Effect.getBalance r.fromToken, Effect.getBalance r.toToken]
      ++ (verification cfg w r bF bT txs).effects) = [txs] := by
  rw [relayed_append, verification_relayed]
  rfl

/-! ## Scenario runner: transaction assembly -/

/-- C6. For a valid method and a request that passes the pre-check, `testTrade`
relays exactly one transaction list. When `fromToken` is not the native asset it
is the `approve(paraswapProxy, fromAmount)` call addressed to `fromToken` with
value 0, followed by the swap call addressed to `paraswap.address` with value 0.
When `fromToken` is the native asset it is the swap call alone, addressed to
`paraswap.address` with value `fromAmount`. The swap call is the call data of the
requested method. -/
theorem testTrade_transactions (cfg : Config) (w : World) (r : TradeRequest) (bF bT : Nat)
    (hF : getBalance cfg w.before r.fromToken = Except.ok bF)
    (hT : getBalance cfg w.before r.toToken = Except.ok bT)
    (hle : r.fromAmount ≤ bF) (hm : r.method ∈ validMethods) :
    ∃ d, swapData cfg r = Except.ok d ∧ d.method = r.method
      ∧ (r.fromToken ≠ PARASWAP_ETH_TOKEN →
          relayed (testTrade cfg w r).effects
            = [[{ to_ := r.fromToken, value := 0,
                  data := { method := "approve",
                            args := [cfg.paraswapProxy, Val.num r.fromAmount] } },
                { to_ := cfg.paraswap.address, value := 0, data := d }]])
      ∧ (r.fromToken = PARASWAP_ETH_TOKEN →
          relayed (testTrade cfg w r).effects
            = [[{ to_ := cfg.paraswap.address, value := r.fromAmount, data := d }]]) := by
  obtain ⟨d, hd, hdm⟩ := swapData_valid cfg r hm
  refine ⟨d, hd, hdm, ?_, ?_⟩
  · intro hne
    rw [testTrade_eq_verification cfg w r bF bT d hF hT hle hd]
    simp [relayed_append, relayed, verification_relayed, hne, encodeTransaction, encodeABI]
  · intro heq
    rw [testTrade_eq_verification cfg w r bF bT d hF hT hle hd]
    simp [relayed_append, relayed, verification_relayed, heq, encodeTransaction]

/-- Instance of `testTrade_transactions` on the sample setup: a multiSwap of 5
tokenA for tokenB relays the approval followed by the swap call. -/
theorem testTrade_transactions_witness :
    ∃ d, swapData sampleConfig
          { method := "multiSwap", fromToken := "0xA", toToken := "0xB", fromAmount := 5 }
        = Except.ok d
      ∧ relayed (testTrade sampleConfig succeedingWorld
          { method := "multiSwap", fromToken := "0xA", toToken := "0xB",
            fromAmount := 5 }).effects
        = [[{ to_ := "0xA", value := 0,
              data := { method := "approve", args := [Val.str "0xProxy", Val.num 5] } },
            { to_ := "0xAugustus", value := 0, data := d }]] := by
  obtain ⟨d, hd, _, h1, _⟩ := testTrade_transactions sampleConfig succeedingWorld
    { method := "multiSwap", fromToken := "0xA", toToken := "0xB", fromAmount := 5 } 5 5
    rfl rfl (by decide) (by decide)
  exact ⟨d, hd, h1 (by decide)⟩

/-! ## Scenario runner: pre-check -/

/-- C7, as stated, fails: with 5 tokenA in the wallet, a request for 10 tokenA
towards an address that is no known token does not fail at the pre-check
assertion: reading the destination balance raises a `TypeError` first. -/
theorem testTrade_preCheck_counterexample :
    ¬ ∀ (cfg : Config) (w : World) (r : TradeRequest) (bF : Nat),
        getBalance cfg w.before r.fromToken = Except.ok bF → bF < r.fromAmount →
        (testTrade cfg w r).result = Except.error preCheckFailure := by
  intro h
  have h0 := h sampleConfig (failingWorld "")
    { method := "multiSwap", fromToken := "0xA", toToken := "0xdead", fromAmount := 10 } 5
    rfl (by decide)
  have h1 : (testTrade sampleConfig (failingWorld "")
      { method := "multiSwap", fromToken := "0xA", toToken := "0xdead",
        fromAmount := 10 }).result
      = Except.error (Failure.typeError "balanceOf is not a function") := rfl
  rw [h1] at h0
  simp [preCheckFailure] at h0

/-- C7, amended. Let the source balance read at the start return `bF`. If
`fromAmount` exceeds it, the relay is never invoked and the run fails; when the
destination balance read returns as well, the failure is the pre-check
assertion. If `fromAmount` is at most `bF` and the destination balance read
returns, the pre-check passes: a valid method goes on to relay one transaction
list and an invalid one reaches the dispatch and raises "Invalid method". -/
theorem testTrade_preCheck (cfg : Config) (w : World) (r : TradeRequest) (bF : Nat)
    (hF : getBalance cfg w.before r.fromToken = Except.ok bF) :
    (bF < r.fromAmount →
      relayed (testTrade cfg w r).effects = []
      ∧ (∃ e, (testTrade cfg w r).result = Except.error e)
      ∧ ∀ bT, getBalance cfg w.before r.toToken = Except.ok bT →
          (testTrade cfg w r).result = Except.error preCheckFailure)
    ∧ (r.fromAmount ≤ bF → ∀ bT, getBalance cfg w.before r.toToken = Except.ok bT →
        (r.method ∈ validMethods → ∃ txs, relayed (testTrade cfg w r).effects = [txs])
        ∧ (r.method ∉ validMethods →
            (testTrade cfg w r).result = Except.error (Failure.error "Invalid method"))) := by
  refine ⟨?_, ?_⟩
  · intro hlt
    cases hT : getBalance cfg w.before r.toToken with
    | error e =>
      refine ⟨?_, ⟨e, ?_⟩, ?_⟩
      · unfold testTrade
        simp only [hF, hT]
        rfl
      · unfold testTrade
        simp only [hF, hT]
      · intro bT hbT
        cases hbT
    | ok bT =>
      rw [testTrade_insufficient cfg w r bF bT hF hT hlt]
      refine ⟨rfl, ⟨_, rfl⟩, ?_⟩
      intro _ _
      rfl
  · intro hle bT hT
    refine ⟨?_, ?_⟩
    · intro hm
      obtain ⟨d, hd, _⟩ := swapData_valid cfg r hm
      rw [testTrade_eq_verification cfg w r bF bT d hF hT hle hd]
      exact ⟨_, relayed_reads_verification cfg w r bF bT _⟩
    · intro hm
      rw [testTrade_invalid cfg w r bF bT hF hT hle hm]

/-- Instance of `testTrade_preCheck` on the sample setup: with 5 tokenA in the
wallet, a request for 10 tokenA towards tokenB fails at the pre-check assertion
and relays nothing. -/
theorem testTrade_preCheck_witness :
    relayed (testTrade sampleConfig (failingWorld "")
        { method := "multiSwap", fromToken := "0xA", toToken := "0xB",
          fromAmount := 10 }).effects = []
    ∧ (testTrade sampleConfig (failingWorld "")
        { method := "multiSwap", fromToken := "0xA", toToken := "0xB",
          fromAmount := 10 }).result = Except.error preCheckFailure :=
  have h := (testTrade_preCheck sampleConfig (failingWorld "")
    { method := "multiSwap", fromToken := "0xA", toToken := "0xB", fromAmount := 10 } 5
    rfl).1 (by decide)
  ⟨h.1, h.2.2 5 rfl⟩

/-! ## Scenario runner: invalid method -/

/-- C8, as stated, fails: with 5 tokenA in the wallet, a request for 10 tokenA
under the method name foo does not raise "Invalid method": it fails earlier, at
the pre-check assertion. -/
theorem testTrade_invalidMethod_counterexample :
    ¬ ∀ (cfg : Config) (w : World) (r : TradeRequest), r.method ∉ validMethods →
        (testTrade cfg w r).result = Except.error (Failure.error "Invalid method") := by
  intro h
  have h0 := h sampleConfig (failingWorld "")
    { method := "foo", fromToken := "0xA", toToken := "0xB", fromAmount := 10 } (by decide)
  rw [testTrade_insufficient sampleConfig (failingWorld "")
    { method := "foo", fromToken := "0xA", toToken := "0xB", fromAmount := 10 } 5 5
    rfl rfl (by decide)] at h0
  simp [preCheckFailure] at h0

/-- C8, amended. For a method name outside the five, `testTrade` never invokes
the relay and never passes, whatever `errorReason` is; once the pre-check has
passed (both balances read, `fromAmount` covered) the failure is the raised
error "Invalid method". -/
theorem testTrade_invalidMethod (cfg : Config) (w : World) (r : TradeRequest)
    (hm : r.method ∉ validMethods) :
    relayed (testTrade cfg w r).effects = []
    ∧ (∃ e, (testTrade cfg w r).result = Except.error e)
    ∧ ∀ bF bT, getBalance cfg w.before r.fromToken = Except.ok bF →
        getBalance cfg w.before r.toToken = Except.ok bT → r.fromAmount ≤ bF →
        (testTrade cfg w r).result = Except.error (Failure.error "Invalid method") := by
  have key : relayed (testTrade cfg w r).effects = []
      ∧ (∃ e, (testTrade cfg w r).result = Except.error e) := by
    cases hF : getBalance cfg w.before r.fromToken with
    | error e =>
      unfold testTrade
      simp only [hF]
      exact ⟨rfl, _, rfl⟩
    | ok bF =>
      cases hT : getBalance cfg w.before r.toToken with
      | error e =>
        unfold testTrade
        simp only [hF, hT]
        exact ⟨rfl, _, rfl⟩
      | ok bT =>
        by_cases hle : r.fromAmount ≤ bF
        · rw [testTrade_invalid cfg w r bF bT hF hT hle hm]
          exact ⟨rfl, _, rfl⟩
        · rw [testTrade_insufficient cfg w r bF bT hF hT (Nat.lt_of_not_le hle)]
          exact ⟨rfl, _, rfl⟩
  refine ⟨key.1, key.2, ?_⟩
  intro bF bT hF hT hle
  rw [testTrade_invalid cfg w r bF bT hF hT hle hm]

/-- Instance of `testTrade_invalidMethod` on the sample setup: the method name
foo with a covered amount and a matching `errorReason` still raises
"Invalid method" and relays nothing. -/
theorem testTrade_invalidMethod_witness :
    relayed (testTrade sampleConfig (failingWorld "Invalid method")
        { method := "foo", fromToken := "0xA", toToken := "0xB", fromAmount := 5,
          errorReason := some "Invalid method" }).effects = []
    ∧ (testTrade sampleConfig (failingWorld "Invalid method")
        { method := "foo", fromToken := "0xA", toToken := "0xB", fromAmount := 5,
          errorReason := some "Invalid method" }).result
      = Except.error (Failure.error "Invalid method") :=
  have h := testTrade_invalidMethod sampleConfig (failingWorld "Invalid method")
    { method := "foo", fromToken := "0xA", toToken := "0xB", fromAmount := 5,
      errorReason := some "Invalid method" } (by decide)
  ⟨h.1, h.2.2 5 5 rfl rfl (by decide)⟩

/-! ## Scenario runner: execution and verification -/

/-- C5, as stated, fails: the empty string is a non-null `errorReason`, and when
the relay fails with the empty error string the run does not pass: the empty
string is falsy, so `multiCall` asserts success instead. -/
theorem testTrade_emptyReason_counterexample :
    ¬ ∀ (cfg : Config) (w : World) (r : TradeRequest) (bF bT : Nat) (reason : String),
        getBalance cfg w.before r.fromToken = Except.ok bF →
        getBalance cfg w.before r.toToken = Except.ok bT →
        r.fromAmount ≤ bF → r.method ∈ validMethods → r.errorReason = some reason →
        ∃ txs, relayed (testTrade cfg w r).effects = [txs]
          ∧ ((testTrade cfg w r).result = Except.ok () ↔
              (w.relay txs).1 = false ∧ (w.relay txs).2 = reason) := by
  intro h
  obtain ⟨txs, _, hiff⟩ := h sampleConfig (failingWorld "")
    { method := "multiSwap", fromToken := "0xA", toToken := "0xB", fromAmount := 5,
      errorReason := some "" } 5 5 "" rfl rfl (by decide) (by decide) rfl
  have hok := hiff.mpr ⟨rfl, rfl⟩
  obtain ⟨d, hd, _⟩ := swapData_valid sampleConfig
    { method := "multiSwap", fromToken := "0xA", toToken := "0xB", fromAmount := 5,
      errorReason := some "" } (by decide)
  rw [testTrade_eq_verification sampleConfig (failingWorld "")
    { method := "multiSwap", fromToken := "0xA", toToken := "0xB", fromAmount := 5,
      errorReason := some "" } 5 5 d rfl rfl (by decide) hd] at hok
  have hv := (verification_falsy sampleConfig (failingWorld "")
    { method := "multiSwap", fromToken := "0xA", toToken := "0xB", fromAmount := 5,
      errorReason := some "" } 5 5 5 5 _ rfl rfl rfl).1.mp hok
  exact absurd hv.1 (by simp [failingWorld])

/-- C5, amended. On a run that reaches the verification step (valid method,
pre-check passed) exactly one transaction list is relayed. If `errorReason` is
truthy (a non-empty string), the run passes if and only if the relay reported
failure and its error string equals `errorReason`, and the only balances read
are the two pre-trade ones. If `errorReason` is falsy (null or the empty
string), the run passes if and only if the relay reported success, the
post-trade source balance is strictly below the pre-trade one and the
post-trade destination balance strictly above. -/
theorem testTrade_verification (cfg : Config) (w : World) (r : TradeRequest) (bF bT : Nat)
    (hF : getBalance cfg w.before r.fromToken = Except.ok bF)
    (hT : getBalance cfg w.before r.toToken = Except.ok bT)
    (hle : r.fromAmount ≤ bF) (hm : r.method ∈ validMethods) :
    ∃ txs aF aT, relayed (testTrade cfg w r).effects = [txs]
      ∧ getBalance cfg w.after r.fromToken = Except.ok aF
      ∧ getBalance cfg w.after r.toToken = Except.ok aT
      ∧ (truthy r.errorReason = true →
          ((testTrade cfg w r).result = Except.ok () ↔
              (w.relay txs).1 = false ∧ some (w.relay txs).2 = r.errorReason)
          ∧ balanceReads (testTrade cfg w r).effects = [r.fromToken, r.toToken])
      ∧ (truthy r.errorReason = false →
          ((testTrade cfg w r).result = Except.ok () ↔
              (w.relay txs).1 = true ∧ aF < bF ∧ bT < aT)) := by
  obtain ⟨d, hd, _⟩ := swapData_valid cfg r hm
  obtain ⟨aF, haF⟩ := getBalance_readable cfg w.before w.after r.fromToken bF hF
  obtain ⟨aT, haT⟩ := getBalance_readable cfg w.before w.after r.toToken bT hT
  rw [testTrade_eq_verification cfg w r bF bT d hF hT hle hd]
  refine ⟨_, aF, aT, relayed_reads_verification cfg w r bF bT _, haF, haT, ?_, ?_⟩
  · intro ht
    refine ⟨(verification_truthy cfg w r bF bT _ ht).1, ?_⟩
    rw [balanceReads_append, (verification_truthy cfg w r bF bT _ ht).2]
    rfl
  · intro hf
    exact (verification_falsy cfg w r bF bT aF aT _ hf haF haT).1

/-- Instance of `testTrade_verification` on the sample setup: a multiSwap of 5
tokenA for tokenB with no expected failure passes when the relay succeeds, the
tokenA balance going from 5 to 3 and the tokenB balance from 5 to 7. -/
theorem testTrade_verification_witness :
    (testTrade sampleConfig succeedingWorld
      { method := "multiSwap", fromToken := "0xA", toToken := "0xB",
        fromAmount := 5 }).result = Except.ok () := by
  obtain ⟨txs, aF, aT, _, haF, haT, _, hfalsy⟩ :=
    testTrade_verification sampleConfig succeedingWorld
      { method := "multiSwap", fromToken := "0xA", toToken := "0xB", fromAmount := 5 } 5 5
      rfl rfl (by decide) (by decide)
  have h3 : aF = 3 := by
    have h : (Except.ok 3 : Except Failure Nat) = Except.ok aF := haF
    injection h with h
    exact h.symm
  have h7 : aT = 7 := by
    have h : (Except.ok 7 : Except Failure Nat) = Except.ok aT := haT
    injection h with h
    exact h.symm
  subst h3 h7
  exact (hfalsy rfl).mpr ⟨rfl, by decide, by decide⟩

end SwapHelper
